import Mathlib

/-!
Shallow embedding of `src/emergency.cpp`: an `Emergency` holds five numeric
severity fields and an ordered list of response actions (`Situation`s).
Each concrete action computes a capped effect fraction from its integer
resource count and applies multiplicative reductions / additive boosts to
the severity fields; a `DelayedResponse` decorator suppresses its wrapped
action until an internal counter reaches a threshold.

The C++ `double` fields are modelled as exact rationals (ℚ); the decorator's
mutable `currentRound` counter is carried inside the `Situation` value, and
`respond` is state-passing: it returns the updated action (counter advanced)
together with the updated severity state.
-/

/-- The five severity fields of `class Emergency` (its numeric data part). -/
structure Sev where
  health : ℚ
  panic_level : ℚ
  fire_damage : ℚ
  flood_damage : ℚ
  injury_level : ℚ
  deriving DecidableEq

/-- The `Situation` class hierarchy: three concrete actions, each holding one
integer resource count, and the `DelayedResponse` decorator holding its inner
action, the `delayRounds` threshold and the mutable `currentRound` counter. -/
inductive Situation where
  | firefighters (units : ℤ)
  | medics (staff : ℤ)
  | rescueTeam (boats : ℤ)
  | delayedResponse (inner : Situation) (delayRounds : ℤ) (currentRound : ℤ)
  deriving DecidableEq

/-- `double impact = std::min(units * 0.1, 1.0);` in `Firefighters::respond`. -/
def firefightersImpact (units : ℤ) : ℚ := min ((units : ℚ) * 0.1) 1

/-- `double heal = std::min(staff * 0.2, 1.0);` in `Medics::respond`. -/
def medicsHeal (staff : ℤ) : ℚ := min ((staff : ℚ) * 0.2) 1

/-- `double effect = std::min(boats * 0.1, 1.0);` in `RescueTeam::respond`. -/
def rescueEffect (boats : ℤ) : ℚ := min ((boats : ℚ) * 0.1) 1

/-- `Firefighters::respond`: scales `fire_damage` by `(1 - impact)` and
`panic_level` by `(1 - impact / 2)`. -/
def firefightersRespond (units : ℤ) (e : Sev) : Sev :=
  { e with
    fire_damage := e.fire_damage * (1 - firefightersImpact units)
    panic_level := e.panic_level * (1 - firefightersImpact units / 2) }

/-- `Medics::respond`: scales `injury_level` by `(1 - heal)` and adds
`heal * 100` to `health`. -/
def medicsRespond (staff : ℤ) (e : Sev) : Sev :=
  { e with
    injury_level := e.injury_level * (1 - medicsHeal staff)
    health := e.health + medicsHeal staff * 100 }

/-- `RescueTeam::respond`: scales `flood_damage` and `panic_level` each by
`(1 - effect)`. -/
def rescueTeamRespond (boats : ℤ) (e : Sev) : Sev :=
  { e with
    flood_damage := e.flood_damage * (1 - rescueEffect boats)
    panic_level := e.panic_level * (1 - rescueEffect boats) }

/-- The virtual `respond(Emergency&)` dispatch. For `DelayedResponse::respond`
the C++ is `if (++currentRound >= delayRounds) inner->respond(e);`: the counter
is incremented first, then the call forwards only once the incremented counter
has reached the threshold. The updated action value carries the new counter. -/
def Situation.respond : Situation → Sev → Situation × Sev
  | .firefighters u, e => (.firefighters u, firefightersRespond u e)
  | .medics s, e => (.medics s, medicsRespond s e)
  | .rescueTeam b, e => (.rescueTeam b, rescueTeamRespond b e)
  | .delayedResponse inner d c, e =>
      if c + 1 ≥ d then
        (.delayedResponse (inner.respond e).1 d (c + 1), (inner.respond e).2)
      else
        (.delayedResponse inner d (c + 1), e)

/-- `DelayedResponse(Situation *s, int delay)`: the constructor initialises
`currentRound = 0`. -/
def mkDelayedResponse (s : Situation) (delay : ℤ) : Situation :=
  .delayedResponse s delay 0

/-- The `currentRound` counter of a decorator (0 for concrete actions). -/
def delayCounter : Situation → ℤ
  | .delayedResponse _ _ c => c
  | _ => 0

/-- The `delayRounds` threshold of a decorator (0 for concrete actions). -/
def delayThreshold : Situation → ℤ
  | .delayedResponse _ d _ => d
  | _ => 0

/-- The wrapped inner action of a decorator (the action itself otherwise). -/
def delayInner : Situation → Situation
  | .delayedResponse i _ _ => i
  | s => s

/-- `class Emergency`: the severity state plus the owned `response_plan`. -/
structure Emergency where
  state : Sev
  response_plan : List Situation

/-- The loop body of `Emergency::activate`:
`for (auto *s : response_plan) s->respond(*this);` — applies each action's
`respond` in list order, threading the severity state and collecting the
updated actions (whose internal counters may have advanced). -/
def activateLoop : List Situation → Sev → List Situation × Sev
  | [], e => ([], e)
  | s :: rest, e =>
      ((s.respond e).1 :: (activateLoop rest (s.respond e).2).1,
       (activateLoop rest (s.respond e).2).2)

/-- `Emergency::activate()`: one full in-order pass over the action list,
mutating the severity state and the actions in place. -/
def Emergency.activate (em : Emergency) : Emergency :=
  ⟨(activateLoop em.response_plan em.state).2,
   (activateLoop em.response_plan em.state).1⟩

/-- One step of a left fold equivalent to the `activate` loop: feed the
current severity state to the action's `respond`, record the updated action. -/
def activateFoldStep (acc : List Situation × Sev) (s : Situation) :
    List Situation × Sev :=
  (acc.1 ++ [(s.respond acc.2).1], (s.respond acc.2).2)

/-- `n` successive `respond` calls on an action, threading action and state. -/
def iterateRespond : ℕ → Situation × Sev → Situation × Sev
  | 0, p => p
  | n + 1, p => iterateRespond n (p.1.respond p.2)

/-! ### Basic lemmas -/

/-- Unfolding `DelayedResponse::respond` as a conditional. -/
theorem respond_delayed_eq (inner : Situation) (d c : ℤ) (e : Sev) :
    Situation.respond (.delayedResponse inner d c) e =
      if c + 1 ≥ d then
        (.delayedResponse (inner.respond e).1 d (c + 1), (inner.respond e).2)
      else
        (.delayedResponse inner d (c + 1), e) := by
  rfl

/-! ### Claims -/

/-- C1: for every severity state, `Firefighters(units).respond` sets
`fireDamage` to `fireDamage*(1-effect)` and `panic` to `panic*(1-effect/2)`
with `effect = min(units*0.1, 1.0)`; `Medics(staff).respond` sets
`injuryLevel` to `injuryLevel*(1-effect)` and `health` to
`health + effect*100` with `effect = min(staff*0.2, 1.0)`;
`RescueTeam(boats).respond` sets `floodDamage` to `floodDamage*(1-effect)`
and `panic` to `panic*(1-effect)` with `effect = min(boats*0.1, 1.0)`. -/
theorem respond_formulas (e : Sev) (u s b : ℤ) :
    (Situation.respond (.firefighters u) e =
      (.firefighters u,
        { e with
          fire_damage := e.fire_damage * (1 - min ((u : ℚ) * 0.1) 1)
          panic_level := e.panic_level * (1 - min ((u : ℚ) * 0.1) 1 / 2) })) ∧
    (Situation.respond (.medics s) e =
      (.medics s,
        { e with
          injury_level := e.injury_level * (1 - min ((s : ℚ) * 0.2) 1)
          health := e.health + min ((s : ℚ) * 0.2) 1 * 100 })) ∧
    (Situation.respond (.rescueTeam b) e =
      (.rescueTeam b,
        { e with
          flood_damage := e.flood_damage * (1 - min ((b : ℚ) * 0.1) 1)
          panic_level := e.panic_level * (1 - min ((b : ℚ) * 0.1) 1) })) :=
  ⟨rfl, rfl, rfl⟩

/-- C2 counterexample: at resource count `-1` every concrete action's effect
fraction is negative, hence not in the inclusive range `[0, 1]`. -/
theorem effect_fraction_counterexample :
    ¬ (0 ≤ firefightersImpact (-1)) ∧
    ¬ (0 ≤ medicsHeal (-1)) ∧
    ¬ (0 ≤ rescueEffect (-1)) := by
  refine ⟨?_, ?_, ?_⟩ <;>
    norm_num [firefightersImpact, medicsHeal, rescueEffect, min_def]

/-- C2 (amended): for every nonnegative integer resource count, the effect
fraction computed by each concrete action lies in the inclusive range
`[0, 1]`. -/
theorem effect_fraction_in_unit_interval (n : ℤ) (h : 0 ≤ n) :
    (0 ≤ firefightersImpact n ∧ firefightersImpact n ≤ 1) ∧
    (0 ≤ medicsHeal n ∧ medicsHeal n ≤ 1) ∧
    (0 ≤ rescueEffect n ∧ rescueEffect n ≤ 1) := by
  have hn : (0 : ℚ) ≤ (n : ℚ) := by exact_mod_cast h
  refine ⟨⟨?_, min_le_right _ _⟩, ⟨?_, min_le_right _ _⟩,
    ⟨?_, min_le_right _ _⟩⟩
  · exact le_min (by positivity) (by norm_num)
  · exact le_min (by positivity) (by norm_num)
  · exact le_min (by positivity) (by norm_num)

/-- C2 witness: the amended bound instantiated at resource count 3. -/
theorem effect_fraction_in_unit_interval_witness :
    (0 ≤ firefightersImpact 3 ∧ firefightersImpact 3 ≤ 1) ∧
    (0 ≤ medicsHeal 3 ∧ medicsHeal 3 ≤ 1) ∧
    (0 ≤ rescueEffect 3 ∧ rescueEffect 3 ≤ 1) :=
  effect_fraction_in_unit_interval 3 (by decide)

/-- C5: resource count zero is an identity on the severity state: applying
`Firefighters(0)`, `Medics(0)` or `RescueTeam(0)` leaves every field
numerically unchanged. -/
theorem zero_resource_identity (e : Sev) :
    Situation.respond (.firefighters 0) e = (.firefighters 0, e) ∧
    Situation.respond (.medics 0) e = (.medics 0, e) ∧
    Situation.respond (.rescueTeam 0) e = (.rescueTeam 0, e) := by
  refine ⟨?_, ?_, ?_⟩ <;>
    simp [Situation.respond, firefightersRespond, medicsRespond,
      rescueTeamRespond, firefightersImpact, medicsHeal, rescueEffect]

/-- C6: each action's effect fraction is monotonically non-decreasing in the
resource count. -/
theorem effect_fraction_monotone (a b : ℤ) (h : a ≤ b) :
    firefightersImpact a ≤ firefightersImpact b ∧
    medicsHeal a ≤ medicsHeal b ∧
    rescueEffect a ≤ rescueEffect b := by
  have hq : (a : ℚ) ≤ (b : ℚ) := by exact_mod_cast h
  refine ⟨?_, ?_, ?_⟩ <;>
    exact min_le_min (by nlinarith) le_rfl

/-- C6 witness: monotonicity instantiated at counts 2 ≤ 7. -/
theorem effect_fraction_monotone_witness :
    firefightersImpact 2 ≤ firefightersImpact 7 ∧
    medicsHeal 2 ≤ medicsHeal 7 ∧
    rescueEffect 2 ≤ rescueEffect 7 :=
  effect_fraction_monotone 2 7 (by decide)

/-- C7: with a resource count of at least 10 the effect fraction caps at 1,
so `Firefighters(units).respond` sets `fireDamage` to exactly 0 and
`RescueTeam(boats).respond` sets `floodDamage` to exactly 0, whatever the
starting value; any count beyond 10 gives the same result. -/
theorem cap_damage_zero (u b : ℤ) (hu : 10 ≤ u) (hb : 10 ≤ b) (e : Sev) :
    (Situation.respond (.firefighters u) e).2.fire_damage = 0 ∧
    (Situation.respond (.rescueTeam b) e).2.flood_damage = 0 := by
  have hu' : (1 : ℚ) ≤ (u : ℚ) * 0.1 := by
    have : (10 : ℚ) ≤ (u : ℚ) := by exact_mod_cast hu
    nlinarith
  have hb' : (1 : ℚ) ≤ (b : ℚ) * 0.1 := by
    have : (10 : ℚ) ≤ (b : ℚ) := by exact_mod_cast hb
    nlinarith
  constructor
  · simp [Situation.respond, firefightersRespond, firefightersImpact,
      min_eq_right hu']
  · simp [Situation.respond, rescueTeamRespond, rescueEffect,
      min_eq_right hb']

/-- C7 witness: counts 10 and 20 both drive the damage fields to exactly 0
from the test scenario's starting state. -/
theorem cap_damage_zero_witness :
    (Situation.respond (.firefighters 10) ⟨70, 40, 60, 50, 30⟩).2.fire_damage
      = 0 ∧
    (Situation.respond (.rescueTeam 20) ⟨70, 40, 60, 50, 30⟩).2.flood_damage
      = 0 :=
  cap_damage_zero 10 20 (by decide) (by decide) ⟨70, 40, 60, 50, 30⟩

/-- C8: `activate()` is not idempotent for undelayed actions: with
`Firefighters(5)` on `fireDamage = 60`, one activation yields 30, a second
yields 15, so two activations differ from one. -/
theorem activate_not_idempotent :
    (Emergency.activate ⟨⟨70, 40, 60, 50, 30⟩, [.firefighters 5]⟩).state.fire_damage = 30 ∧
    (Emergency.activate (Emergency.activate
        ⟨⟨70, 40, 60, 50, 30⟩, [.firefighters 5]⟩)).state.fire_damage = 15 ∧
    (Emergency.activate (Emergency.activate
        ⟨⟨70, 40, 60, 50, 30⟩, [.firefighters 5]⟩)).state ≠
      (Emergency.activate ⟨⟨70, 40, 60, 50, 30⟩, [.firefighters 5]⟩).state := by
  have h1 : (Emergency.activate
      ⟨⟨70, 40, 60, 50, 30⟩, [.firefighters 5]⟩).state.fire_damage = 30 := by
    norm_num [Emergency.activate, activateLoop, Situation.respond,
      firefightersRespond, firefightersImpact, min_def]
  have h2 : (Emergency.activate (Emergency.activate
      ⟨⟨70, 40, 60, 50, 30⟩, [.firefighters 5]⟩)).state.fire_damage = 15 := by
    norm_num [Emergency.activate, activateLoop, Situation.respond,
      firefightersRespond, firefightersImpact, min_def]
  exact ⟨h1, h2, fun h => by rw [h, h1] at h2; norm_num at h2⟩

/-- The `activate` loop agrees with a left fold of `activateFoldStep`, for any
already-accumulated prefix of updated actions. -/
theorem activateLoop_eq_foldl (plan : List Situation) :
    ∀ (e : Sev) (pre : List Situation),
      plan.foldl activateFoldStep (pre, e) =
        (pre ++ (activateLoop plan e).1, (activateLoop plan e).2) := by
  induction plan with
  | nil => intro e pre; simp [activateLoop]
  | cons s rest ih =>
      intro e pre
      simp only [List.foldl_cons, activateLoop, activateFoldStep]
      rw [ih]
      simp

/-- The `activate` loop produces one updated action per listed action. -/
theorem activateLoop_length (plan : List Situation) :
    ∀ e : Sev, (activateLoop plan e).1.length = plan.length := by
  induction plan with
  | nil => intro e; rfl
  | cons s rest ih => intro e; simp [activateLoop, ih]

/-- C4: one call to `activate()` equals the in-order left fold of each
action's `respond` over the severity state, invoking each listed action
exactly once per call (one updated action per listed action), and the
resulting state is left in place: a subsequent `activate()` starts from the
emergency produced by the first, with no reset in between. -/
theorem activate_is_in_order_fold (em : Emergency) :
    em.activate.state =
      (em.response_plan.foldl activateFoldStep ([], em.state)).2 ∧
    em.activate.response_plan =
      (em.response_plan.foldl activateFoldStep ([], em.state)).1 ∧
    em.activate.response_plan.length = em.response_plan.length ∧
    em.activate.activate =
      Emergency.activate ⟨em.activate.state, em.activate.response_plan⟩ := by
  refine ⟨?_, ?_, ?_, rfl⟩ <;>
    simp [Emergency.activate, activateLoop_eq_foldl, activateLoop_length]

/-- C9: each action mutates only the severity fields named in its formula:
`Firefighters` leaves `health`, `floodDamage`, `injuryLevel` unchanged;
`Medics` leaves `panic`, `fireDamage`, `floodDamage` unchanged; `RescueTeam`
leaves `health`, `fireDamage`, `injuryLevel` unchanged; a dormant
`DelayedResponse` (incremented counter still below the threshold) leaves all
five fields unchanged. -/
theorem respond_frame (e : Sev) (u s b : ℤ) (inner : Situation) (d c : ℤ)
    (hdormant : c + 1 < d) :
    ((firefightersRespond u e).health = e.health ∧
     (firefightersRespond u e).flood_damage = e.flood_damage ∧
     (firefightersRespond u e).injury_level = e.injury_level) ∧
    ((medicsRespond s e).panic_level = e.panic_level ∧
     (medicsRespond s e).fire_damage = e.fire_damage ∧
     (medicsRespond s e).flood_damage = e.flood_damage) ∧
    ((rescueTeamRespond b e).health = e.health ∧
     (rescueTeamRespond b e).fire_damage = e.fire_damage ∧
     (rescueTeamRespond b e).injury_level = e.injury_level) ∧
    (Situation.respond (.delayedResponse inner d c) e).2 = e := by
  refine ⟨⟨rfl, rfl, rfl⟩, ⟨rfl, rfl, rfl⟩, ⟨rfl, rfl, rfl⟩, ?_⟩
  rw [respond_delayed_eq, if_neg (by omega)]

/-- C9 witness: a dormant decorator (counter 0, threshold 2) leaves the test
scenario's state unchanged. -/
theorem respond_frame_witness :
    (Situation.respond (.delayedResponse (.firefighters 5) 2 0)
      ⟨70, 40, 60, 50, 30⟩).2 = (⟨70, 40, 60, 50, 30⟩ : Sev) :=
  (respond_frame ⟨70, 40, 60, 50, 30⟩ 5 3 2 (.firefighters 5) 2 0
    (by decide)).2.2.2

/-- C10: a `DelayedResponse` built with threshold at most 1 (so 1, 0 or any
negative value) forwards to the wrapped action already on its very first
`respond` call, and — since the counter only grows — on every later call as
well (any nonnegative counter value forwards). -/
theorem delayed_response_forwards_immediately (inner : Situation) (d c : ℤ)
    (e : Sev) (hd : d ≤ 1) (hc : 0 ≤ c) :
    Situation.respond (mkDelayedResponse inner d) e =
      (.delayedResponse (inner.respond e).1 d 1, (inner.respond e).2) ∧
    Situation.respond (.delayedResponse inner d c) e =
      (.delayedResponse (inner.respond e).1 d (c + 1), (inner.respond e).2) := by
  constructor
  · show Situation.respond (.delayedResponse inner d 0) e = _
    rw [respond_delayed_eq, if_pos (by omega)]
    norm_num
  · rw [respond_delayed_eq, if_pos (by omega)]

/-- C10 witness: threshold 1 forwards `Medics(3)` on the first call. -/
theorem delayed_response_forwards_immediately_witness :
    Situation.respond (mkDelayedResponse (.medics 3) 1) ⟨70, 40, 60, 50, 30⟩ =
      (.delayedResponse
        ((Situation.medics 3).respond ⟨70, 40, 60, 50, 30⟩).1 1 1,
       ((Situation.medics 3).respond ⟨70, 40, 60, 50, 30⟩).2) :=
  (delayed_response_forwards_immediately (.medics 3) 1 0 ⟨70, 40, 60, 50, 30⟩
    (by decide) (by decide)).1

/-- Peeling the last call off an iteration of `respond`. -/
theorem iterateRespond_succ_eq (n : ℕ) :
    ∀ p : Situation × Sev,
      iterateRespond (n + 1) p =
        (iterateRespond n p).1.respond (iterateRespond n p).2 := by
  induction n with
  | zero => intro p; rfl
  | succ m ih =>
      intro p
      show iterateRespond (m + 1) (p.1.respond p.2) = _
      rw [ih]
      rfl

/-- Iterating `respond` on a decorator keeps the decorator shape and the
threshold, and advances the counter by exactly one per call. -/
theorem iterateRespond_delayed_shape (n : ℕ) :
    ∀ (inner : Situation) (d c : ℤ) (e : Sev),
      ∃ i e', iterateRespond n (.delayedResponse inner d c, e) =
        (.delayedResponse i d (c + n), e') := by
  induction n with
  | zero => intro inner d c e; exact ⟨inner, e, by simp [iterateRespond]⟩
  | succ m ih =>
      intro inner d c e
      rcases le_or_lt d (c + 1) with h | h
      · have hstep : (Situation.delayedResponse inner d c).respond e =
            (.delayedResponse (inner.respond e).1 d (c + 1),
             (inner.respond e).2) := by
          rw [respond_delayed_eq, if_pos h]
        obtain ⟨i, e', hi⟩ :=
          ih (inner.respond e).1 d (c + 1) (inner.respond e).2
        refine ⟨i, e', ?_⟩
        show iterateRespond m
            ((Situation.delayedResponse inner d c).respond e) = _
        have hcount : c + 1 + (m : ℤ) = c + ((m + 1 : ℕ) : ℤ) := by
          push_cast; ring
        rw [hstep, hi, hcount]
      · have hstep : (Situation.delayedResponse inner d c).respond e =
            (.delayedResponse inner d (c + 1), e) := by
          rw [respond_delayed_eq, if_neg (by omega)]
        obtain ⟨i, e', hi⟩ := ih inner d (c + 1) e
        refine ⟨i, e', ?_⟩
        show iterateRespond m
            ((Situation.delayedResponse inner d c).respond e) = _
        have hcount : c + 1 + (m : ℤ) = c + ((m + 1 : ℕ) : ℤ) := by
          push_cast; ring
        rw [hstep, hi, hcount]

/-- While the advanced counter stays below the threshold, every call is a
no-op for both the severity state and the wrapped action. -/
theorem iterateRespond_dormant (n : ℕ) :
    ∀ (inner : Situation) (d c : ℤ) (e : Sev), c + n < d →
      iterateRespond n (.delayedResponse inner d c, e) =
        (.delayedResponse inner d (c + n), e) := by
  induction n with
  | zero => intro inner d c e _; simp [iterateRespond]
  | succ m ih =>
      intro inner d c e h
      have hstep : (Situation.delayedResponse inner d c).respond e =
          (.delayedResponse inner d (c + 1), e) := by
        rw [respond_delayed_eq, if_neg (by push_cast at h; omega)]
      show iterateRespond m
          ((Situation.delayedResponse inner d c).respond e) = _
      have hcount : c + 1 + (m : ℤ) = c + ((m + 1 : ℕ) : ℤ) := by
        push_cast; ring
      rw [hstep, ih inner d (c + 1) e (by push_cast at h ⊢; omega), hcount]

/-- C3: starting from a freshly constructed `DelayedResponse(inner, d)`, after
`n ≥ 1` `respond` calls the internal counter is exactly `n` (it advances by
one per call) and the threshold is still `d`; while `n < d` the severity state
and wrapped action are untouched; and for every `n ≥ d` the `n`-th call
forwards to the wrapped action's `respond` on the current state — permanently,
with no reset or re-arming. -/
theorem delayed_response_schedule (inner : Situation) (d : ℤ) (e : Sev)
    (n : ℕ) (hn : 1 ≤ n) :
    delayCounter (iterateRespond n (mkDelayedResponse inner d, e)).1 = n ∧
    delayThreshold (iterateRespond n (mkDelayedResponse inner d, e)).1 = d ∧
    ((n : ℤ) < d →
      iterateRespond n (mkDelayedResponse inner d, e) =
        (.delayedResponse inner d n, e)) ∧
    (d ≤ (n : ℤ) →
      (iterateRespond n (mkDelayedResponse inner d, e)).2 =
        ((delayInner
            (iterateRespond (n - 1) (mkDelayedResponse inner d, e)).1).respond
          (iterateRespond (n - 1) (mkDelayedResponse inner d, e)).2).2) := by
  obtain ⟨i, e', hshape⟩ := iterateRespond_delayed_shape n inner d 0 e
  refine ⟨?_, ?_, ?_, ?_⟩
  · show delayCounter
        (iterateRespond n (.delayedResponse inner d 0, e)).1 = (n : ℤ)
    rw [hshape]
    simp [delayCounter]
  · show delayThreshold
        (iterateRespond n (.delayedResponse inner d 0, e)).1 = d
    rw [hshape]
    rfl
  · intro hlt
    have hd := iterateRespond_dormant n inner d 0 e (by omega)
    show iterateRespond n (.delayedResponse inner d 0, e) = _
    rw [hd]
    norm_num
  · intro hge
    obtain ⟨m, rfl⟩ : ∃ m, n = m + 1 := ⟨n - 1, by omega⟩
    obtain ⟨i', e'', hq⟩ := iterateRespond_delayed_shape m inner d 0 e
    simp only [Nat.add_sub_cancel]
    rw [iterateRespond_succ_eq m (mkDelayedResponse inner d, e)]
    show (((iterateRespond m (.delayedResponse inner d 0, e)).1.respond
        (iterateRespond m (.delayedResponse inner d 0, e)).2)).2 =
      ((delayInner
          (iterateRespond m (.delayedResponse inner d 0, e)).1).respond
        (iterateRespond m (.delayedResponse inner d 0, e)).2).2
    rw [hq]
    show ((Situation.delayedResponse i' d (0 + (m : ℤ))).respond e'').2 =
      (i'.respond e'').2
    rw [respond_delayed_eq, if_pos (by push_cast at hge ⊢; omega)]

/-- C3 witness: `DelayedResponse(Firefighters(5), 2)` after 2 calls has
counter 2, and the second call (2 ≥ threshold) forwarded to the wrapped
action's `respond` on the state left by the first call. -/
theorem delayed_response_schedule_witness :
    delayCounter (iterateRespond 2 (mkDelayedResponse (.firefighters 5) 2,
      (⟨70, 40, 60, 50, 30⟩ : Sev))).1 = 2 ∧
    (iterateRespond 2 (mkDelayedResponse (.firefighters 5) 2,
      (⟨70, 40, 60, 50, 30⟩ : Sev))).2 =
      ((delayInner (iterateRespond 1 (mkDelayedResponse (.firefighters 5) 2,
          (⟨70, 40, 60, 50, 30⟩ : Sev))).1).respond
        (iterateRespond 1 (mkDelayedResponse (.firefighters 5) 2,
          (⟨70, 40, 60, 50, 30⟩ : Sev))).2).2 :=
  ⟨(delayed_response_schedule (.firefighters 5) 2 ⟨70, 40, 60, 50, 30⟩ 2
      (by decide)).1,
   (delayed_response_schedule (.firefighters 5) 2 ⟨70, 40, 60, 50, 30⟩ 2
      (by decide)).2.2.2 (by decide)⟩
